import Mathlib

/-!
Verification of the invitation-conduit backend (parsec/backend/invite.py).

The Python module is shallowly embedded: pure fragments become Lean
functions, the async `conduit_exchange` loop becomes a fuel-indexed loop
over an oracle giving the successive results of `_conduit_listen`, and the
actions the coroutine performs (waiter registration, talk, wait, clear,
listen) are recorded as an explicit trace. Byte strings are lists of
naturals, identifiers are strings, UUIDs are naturals.
-/

/-- Byte strings (Python `bytes`). -/
abbrev Bytes := List Nat

/-- Organization identifiers (opaque strings). -/
abbrev OrganizationID := String

/-- User identifiers (opaque strings). -/
abbrev UserID := String

/-- Invitation tokens: 128-bit opaque identifiers, embedded as naturals. -/
abbrev UUID := Nat

/-- The seven conduit states (class ConduitState in invite.py). -/
inductive ConduitState where
  | STATE_1_WAIT_PEERS
  | STATE_2_1_CLAIMER_HASHED_NONCE
  | STATE_2_2_GREETER_NONCE
  | STATE_2_3_CLAIMER_NONCE
  | STATE_3_1_CLAIMER_TRUST
  | STATE_3_2_GREETER_TRUST
  | STATE_4_COMMUNICATE
deriving DecidableEq, Repr

/-- The NEXT_CONDUIT_STATE dict of invite.py: one entry per state, so the
dict is a total function on ConduitState. -/
def NEXT_CONDUIT_STATE : ConduitState → ConduitState
  | ConduitState.STATE_1_WAIT_PEERS => ConduitState.STATE_2_1_CLAIMER_HASHED_NONCE
  | ConduitState.STATE_2_1_CLAIMER_HASHED_NONCE => ConduitState.STATE_2_2_GREETER_NONCE
  | ConduitState.STATE_2_2_GREETER_NONCE => ConduitState.STATE_2_3_CLAIMER_NONCE
  | ConduitState.STATE_2_3_CLAIMER_NONCE => ConduitState.STATE_3_1_CLAIMER_TRUST
  | ConduitState.STATE_3_1_CLAIMER_TRUST => ConduitState.STATE_3_2_GREETER_TRUST
  | ConduitState.STATE_3_2_GREETER_TRUST => ConduitState.STATE_4_COMMUNICATE
  | ConduitState.STATE_4_COMMUNICATE => ConduitState.STATE_4_COMMUNICATE

/-- PEER_EVENT_MAX_WAIT = 300 (seconds), declared at the top of invite.py. -/
def PEER_EVENT_MAX_WAIT : Nat := 300

/-- The three invitation errors raised by the conduit engine
(InvitationNotFoundError, InvitationAlreadyDeletedError,
InvitationInvalidStateError in invite.py). -/
inductive InvitationError where
  | notFound
  | alreadyDeleted
  | invalidState
deriving DecidableEq, Repr

/-- The ConduitListenCtx record returned by _conduit_talk (invite.py). -/
structure ConduitListenCtx where
  organization_id : OrganizationID
  greeter : Option UserID
  token : UUID
  state : ConduitState
  payload : Bytes
  peer_payload : Option Bytes
deriving DecidableEq, Repr

/-- ConduitListenCtx.is_greeter: true iff the greeter field is set. -/
def ConduitListenCtx.is_greeter (ctx : ConduitListenCtx) : Bool :=
  ctx.greeter.isSome

/-- The argument tuple of one conduit_exchange call: organization, side
(greeter user id, or none for the claimer), token, expected state and the
payload deposited. -/
structure ExchangeCall where
  organization_id : OrganizationID
  greeter : Option UserID
  token : UUID
  state : ConduitState
  payload : Bytes
deriving DecidableEq, Repr

/-- Outcome of a conduit_exchange call: the peer payload, or one of the
three invitation errors. -/
abbrev ExchangeResult := Except InvitationError Bytes

/-- Oracle giving the outcome of each conduit_exchange call an RPC handler
performs; used to embed the handlers, whose engine is abstract in the
source (_conduit_talk and _conduit_listen raise NotImplementedError). -/
abbrev ExchangeOracle := ExchangeCall → ExchangeResult

/-- The closure _conduit_updated_filter built inside conduit_exchange:
accepts an `invite.conduit_updated` event iff the event's organization id
and token equal the captured call arguments. -/
def _conduit_updated_filter (filter_organization_id : OrganizationID) (filter_token : UUID)
    (organization_id : OrganizationID) (token : UUID) : Bool :=
  organization_id == filter_organization_id && token == filter_token

/-- The waiting loop of conduit_exchange: each iteration waits for one
`invite.conduit_updated` wakeup, clears the waiter, and calls
_conduit_listen; the first non-None listen result is returned. `listens i`
is the result of the i-th _conduit_listen call and `fuel` the number of
wakeups delivered (the Python loop is `while True`; fuel makes it total,
running out of fuel means the coroutine is still waiting). -/
def conduit_exchange_loop (listens : Nat → Option Bytes) : Nat → Nat → Option Bytes
  | _, 0 => none
  | i, fuel + 1 =>
    match listens i with
    | some peer_payload => some peer_payload
    | none => conduit_exchange_loop listens (i + 1) fuel

/-- conduit_exchange (invite.py): registers a waiter on
`invite.conduit_updated` (filtered on the call's organization and token),
talks, then runs the waiting loop. `talk` abstracts _conduit_talk and
`listen` abstracts _conduit_listen applied to the context talk returned. -/
def conduit_exchange (talk : ExchangeCall → ConduitListenCtx)
    (listen : ConduitListenCtx → Nat → Option Bytes)
    (call : ExchangeCall) (fuel : Nat) : Option Bytes :=
  conduit_exchange_loop (listen (talk call)) 0 fuel

/-- The actions conduit_exchange performs, in order, as an explicit trace. -/
inductive ExchangeAction where
  | registerWaiter (event : String) (filter_organization_id : OrganizationID)
      (filter_token : UUID)
  | talkStep (call : ExchangeCall)
  | waiterWait
  | waiterClear
  | listenStep
deriving DecidableEq, Repr

/-- Trace of the waiting loop: one wait, clear, listen triple per
iteration, stopping after the first non-None listen result. -/
def conduit_exchange_loop_trace (listens : Nat → Option Bytes) : Nat → Nat → List ExchangeAction
  | _, 0 => []
  | i, fuel + 1 =>
    match listens i with
    | some _ => [ExchangeAction.waiterWait, ExchangeAction.waiterClear, ExchangeAction.listenStep]
    | none =>
      ExchangeAction.waiterWait :: ExchangeAction.waiterClear :: ExchangeAction.listenStep ::
        conduit_exchange_loop_trace listens (i + 1) fuel

/-- Full trace of conduit_exchange: the waiter on `invite.conduit_updated`
is registered (with the call's organization and token as filter arguments)
before _conduit_talk runs, then the waiting loop follows. -/
def conduit_exchange_trace (talk : ExchangeCall → ConduitListenCtx)
    (listen : ConduitListenCtx → Nat → Option Bytes)
    (call : ExchangeCall) (fuel : Nat) : List ExchangeAction :=
  ExchangeAction.registerWaiter "invite.conduit_updated" call.organization_id call.token ::
    ExchangeAction.talkStep call ::
    conduit_exchange_loop_trace (listen (talk call)) 0 fuel

/-- k repetitions of the wait, clear, listen iteration block; the shape the
waiting loop's trace is proved to take. -/
def waitClearListenBlocks : Nat → List ExchangeAction
  | 0 => []
  | k + 1 =>
    ExchangeAction.waiterWait :: ExchangeAction.waiterClear :: ExchangeAction.listenStep ::
      waitClearListenBlocks k

/-- Modelled from the spec: the transport-level timeout on
conduit_exchange. Missing from src/: invite.py declares
PEER_EVENT_MAX_WAIT but no code under src/ applies it; per spec sections 5
and 7 the bound is enforced outside the conduit engine and surfaces as a
transport-level error, never as a conduit status. A transport run delivers
at most as many wakeups as seconds before the deadline; an exchange still
pending when the transport cancels it ends in a timeout error. -/
inductive TransportOutcome where
  | completed (peer_payload : Bytes)
  | timeoutError
deriving DecidableEq, Repr

/-- Modelled from the spec: run conduit_exchange under the transport
deadline of PEER_EVENT_MAX_WAIT seconds; `wakeups` is the number of
`invite.conduit_updated` wakeups delivered before the deadline. A run that
has produced no payload by the deadline is cancelled by the transport and
surfaces as a timeout error. -/
def transport_bounded_exchange (listens : Nat → Option Bytes) (wakeups : Nat) :
    TransportOutcome :=
  match conduit_exchange_loop listens 0 wakeups with
  | some peer_payload => TransportOutcome.completed peer_payload
  | none => TransportOutcome.timeoutError

/-- A conduit-step RPC reply: the wire status plus the byte-string fields
of the reply map (rep_dump adds the status; the payload field, when the
RPC has one, is listed here by name). -/
structure InviteStepRep where
  status : String
  fields : List (String × Bytes)
deriving DecidableEq, Repr

/-- The uniform error-to-status mapping the twelve step handlers are
proved to share: each engine error becomes its wire status with no payload
field, success becomes status "ok" with the handler's payload fields. -/
def step_reply (ok_fields : Bytes → List (String × Bytes)) : ExchangeResult → InviteStepRep
  | Except.error InvitationError.notFound => ⟨"not_found", []⟩
  | Except.error InvitationError.alreadyDeleted => ⟨"already_deleted", []⟩
  | Except.error InvitationError.invalidState => ⟨"invalid_state", []⟩
  | Except.ok peer_payload => ⟨"ok", ok_fields peer_payload⟩

/-- api_invite_1_claimer_wait_peer: one exchange at STATE_1_WAIT_PEERS on
the claimer side with the claimer public key; errors map to their wire
statuses, success returns the greeter public key. The second component
logs the conduit_exchange calls performed. -/
def api_invite_1_claimer_wait_peer (exchange : ExchangeOracle)
    (organization_id : OrganizationID) (invitation_token : UUID)
    (claimer_public_key : Bytes) : InviteStepRep × List ExchangeCall :=
  match exchange ⟨organization_id, none, invitation_token,
      ConduitState.STATE_1_WAIT_PEERS, claimer_public_key⟩ with
  | Except.error InvitationError.notFound =>
      (⟨"not_found", []⟩,
        [⟨organization_id, none, invitation_token, ConduitState.STATE_1_WAIT_PEERS,
          claimer_public_key⟩])
  | Except.error InvitationError.alreadyDeleted =>
      (⟨"already_deleted", []⟩,
        [⟨organization_id, none, invitation_token, ConduitState.STATE_1_WAIT_PEERS,
          claimer_public_key⟩])
  | Except.error InvitationError.invalidState =>
      (⟨"invalid_state", []⟩,
        [⟨organization_id, none, invitation_token, ConduitState.STATE_1_WAIT_PEERS,
          claimer_public_key⟩])
  | Except.ok greeter_public_key =>
      (⟨"ok", [("greeter_public_key", greeter_public_key)]⟩,
        [⟨organization_id, none, invitation_token, ConduitState.STATE_1_WAIT_PEERS,
          claimer_public_key⟩])

/-- api_invite_1_greeter_wait_peer: one exchange at STATE_1_WAIT_PEERS on
the greeter side with the greeter public key; success returns the claimer
public key. -/
def api_invite_1_greeter_wait_peer (exchange : ExchangeOracle)
    (organization_id : OrganizationID) (user_id : UserID) (token : UUID)
    (greeter_public_key : Bytes) : InviteStepRep × List ExchangeCall :=
  match exchange ⟨organization_id, some user_id, token,
      ConduitState.STATE_1_WAIT_PEERS, greeter_public_key⟩ with
  | Except.error InvitationError.notFound =>
      (⟨"not_found", []⟩,
        [⟨organization_id, some user_id, token, ConduitState.STATE_1_WAIT_PEERS,
          greeter_public_key⟩])
  | Except.error InvitationError.alreadyDeleted =>
      (⟨"already_deleted", []⟩,
        [⟨organization_id, some user_id, token, ConduitState.STATE_1_WAIT_PEERS,
          greeter_public_key⟩])
  | Except.error InvitationError.invalidState =>
      (⟨"invalid_state", []⟩,
        [⟨organization_id, some user_id, token, ConduitState.STATE_1_WAIT_PEERS,
          greeter_public_key⟩])
  | Except.ok claimer_public_key =>
      (⟨"ok", [("claimer_public_key", claimer_public_key)]⟩,
        [⟨organization_id, some user_id, token, ConduitState.STATE_1_WAIT_PEERS,
          greeter_public_key⟩])

/-- api_invite_2a_claimer_send_hashed_nonce: two chained exchanges in one
request: first at STATE_2_1_CLAIMER_HASHED_NONCE with the hashed nonce
(result discarded), then at STATE_2_2_GREETER_NONCE with an empty payload,
returning the greeter nonce. Both calls sit in one try block, so an error
from either maps to its wire status. -/
def api_invite_2a_claimer_send_hashed_nonce (exchange : ExchangeOracle)
    (organization_id : OrganizationID) (invitation_token : UUID)
    (claimer_hashed_nonce : Bytes) : InviteStepRep × List ExchangeCall :=
  match exchange ⟨organization_id, none, invitation_token,
      ConduitState.STATE_2_1_CLAIMER_HASHED_NONCE, claimer_hashed_nonce⟩ with
  | Except.error InvitationError.notFound =>
      (⟨"not_found", []⟩,
        [⟨organization_id, none, invitation_token,
          ConduitState.STATE_2_1_CLAIMER_HASHED_NONCE, claimer_hashed_nonce⟩])
  | Except.error InvitationError.alreadyDeleted =>
      (⟨"already_deleted", []⟩,
        [⟨organization_id, none, invitation_token,
          ConduitState.STATE_2_1_CLAIMER_HASHED_NONCE, claimer_hashed_nonce⟩])
  | Except.error InvitationError.invalidState =>
      (⟨"invalid_state", []⟩,
        [⟨organization_id, none, invitation_token,
          ConduitState.STATE_2_1_CLAIMER_HASHED_NONCE, claimer_hashed_nonce⟩])
  | Except.ok _ =>
      match exchange ⟨organization_id, none, invitation_token,
          ConduitState.STATE_2_2_GREETER_NONCE, []⟩ with
      | Except.error InvitationError.notFound =>
          (⟨"not_found", []⟩,
            [⟨organization_id, none, invitation_token,
              ConduitState.STATE_2_1_CLAIMER_HASHED_NONCE, claimer_hashed_nonce⟩,
             ⟨organization_id, none, invitation_token,
              ConduitState.STATE_2_2_GREETER_NONCE, []⟩])
      | Except.error InvitationError.alreadyDeleted =>
          (⟨"already_deleted", []⟩,
            [⟨organization_id, none, invitation_token,
              ConduitState.STATE_2_1_CLAIMER_HASHED_NONCE, claimer_hashed_nonce⟩,
             ⟨organization_id, none, invitation_token,
              ConduitState.STATE_2_2_GREETER_NONCE, []⟩])
      | Except.error InvitationError.invalidState =>
          (⟨"invalid_state", []⟩,
            [⟨organization_id, none, invitation_token,
              ConduitState.STATE_2_1_CLAIMER_HASHED_NONCE, claimer_hashed_nonce⟩,
             ⟨organization_id, none, invitation_token,
              ConduitState.STATE_2_2_GREETER_NONCE, []⟩])
      | Except.ok greeter_nonce =>
          (⟨"ok", [("greeter_nonce", greeter_nonce)]⟩,
            [⟨organization_id, none, invitation_token,
              ConduitState.STATE_2_1_CLAIMER_HASHED_NONCE, claimer_hashed_nonce⟩,
             ⟨organization_id, none, invitation_token,
              ConduitState.STATE_2_2_GREETER_NONCE, []⟩])

/-- api_invite_2a_greeter_get_hashed_nonce: one exchange at
STATE_2_1_CLAIMER_HASHED_NONCE on the greeter side with an empty payload;
success returns the claimer hashed nonce. -/
def api_invite_2a_greeter_get_hashed_nonce (exchange : ExchangeOracle)
    (organization_id : OrganizationID) (user_id : UserID) (token : UUID) :
    InviteStepRep × List ExchangeCall :=
  match exchange ⟨organization_id, some user_id, token,
      ConduitState.STATE_2_1_CLAIMER_HASHED_NONCE, []⟩ with
  | Except.error InvitationError.notFound =>
      (⟨"not_found", []⟩,
        [⟨organization_id, some user_id, token,
          ConduitState.STATE_2_1_CLAIMER_HASHED_NONCE, []⟩])
  | Except.error InvitationError.alreadyDeleted =>
      (⟨"already_deleted", []⟩,
        [⟨organization_id, some user_id, token,
          ConduitState.STATE_2_1_CLAIMER_HASHED_NONCE, []⟩])
  | Except.error InvitationError.invalidState =>
      (⟨"invalid_state", []⟩,
        [⟨organization_id, some user_id, token,
          ConduitState.STATE_2_1_CLAIMER_HASHED_NONCE, []⟩])
  | Except.ok claimer_hashed_nonce =>
      (⟨"ok", [("claimer_hashed_nonce", claimer_hashed_nonce)]⟩,
        [⟨organization_id, some user_id, token,
          ConduitState.STATE_2_1_CLAIMER_HASHED_NONCE, []⟩])

/-- api_invite_2b_greeter_send_nonce: two chained exchanges in one
request: first at STATE_2_2_GREETER_NONCE with the greeter nonce (result
discarded), then at STATE_2_3_CLAIMER_NONCE with an empty payload,
returning the claimer nonce. -/
def api_invite_2b_greeter_send_nonce (exchange : ExchangeOracle)
    (organization_id : OrganizationID) (user_id : UserID) (token : UUID)
    (greeter_nonce : Bytes) : InviteStepRep × List ExchangeCall :=
  match exchange ⟨organization_id, some user_id, token,
      ConduitState.STATE_2_2_GREETER_NONCE, greeter_nonce⟩ with
  | Except.error InvitationError.notFound =>
      (⟨"not_found", []⟩,
        [⟨organization_id, some user_id, token,
          ConduitState.STATE_2_2_GREETER_NONCE, greeter_nonce⟩])
  | Except.error InvitationError.alreadyDeleted =>
      (⟨"already_deleted", []⟩,
        [⟨organization_id, some user_id, token,
          ConduitState.STATE_2_2_GREETER_NONCE, greeter_nonce⟩])
  | Except.error InvitationError.invalidState =>
      (⟨"invalid_state", []⟩,
        [⟨organization_id, some user_id, token,
          ConduitState.STATE_2_2_GREETER_NONCE, greeter_nonce⟩])
  | Except.ok _ =>
      match exchange ⟨organization_id, some user_id, token,
          ConduitState.STATE_2_3_CLAIMER_NONCE, []⟩ with
      | Except.error InvitationError.notFound =>
          (⟨"not_found", []⟩,
            [⟨organization_id, some user_id, token,
              ConduitState.STATE_2_2_GREETER_NONCE, greeter_nonce⟩,
             ⟨organization_id, some user_id, token,
              ConduitState.STATE_2_3_CLAIMER_NONCE, []⟩])
      | Except.error InvitationError.alreadyDeleted =>
          (⟨"already_deleted", []⟩,
            [⟨organization_id, some user_id, token,
              ConduitState.STATE_2_2_GREETER_NONCE, greeter_nonce⟩,
             ⟨organization_id, some user_id, token,
              ConduitState.STATE_2_3_CLAIMER_NONCE, []⟩])
      | Except.error InvitationError.invalidState =>
          (⟨"invalid_state", []⟩,
            [⟨organization_id, some user_id, token,
              ConduitState.STATE_2_2_GREETER_NONCE, greeter_nonce⟩,
             ⟨organization_id, some user_id, token,
              ConduitState.STATE_2_3_CLAIMER_NONCE, []⟩])
      | Except.ok claimer_nonce =>
          (⟨"ok", [("claimer_nonce", claimer_nonce)]⟩,
            [⟨organization_id, some user_id, token,
              ConduitState.STATE_2_2_GREETER_NONCE, greeter_nonce⟩,
             ⟨organization_id, some user_id, token,
              ConduitState.STATE_2_3_CLAIMER_NONCE, []⟩])

/-- api_invite_2b_claimer_send_nonce: one exchange at
STATE_2_3_CLAIMER_NONCE on the claimer side with the claimer nonce; the
peer payload of a successful exchange is discarded and the reply is a bare
ok. -/
def api_invite_2b_claimer_send_nonce (exchange : ExchangeOracle)
    (organization_id : OrganizationID) (invitation_token : UUID)
    (claimer_nonce : Bytes) : InviteStepRep × List ExchangeCall :=
  match exchange ⟨organization_id, none, invitation_token,
      ConduitState.STATE_2_3_CLAIMER_NONCE, claimer_nonce⟩ with
  | Except.error InvitationError.notFound =>
      (⟨"not_found", []⟩,
        [⟨organization_id, none, invitation_token,
          ConduitState.STATE_2_3_CLAIMER_NONCE, claimer_nonce⟩])
  | Except.error InvitationError.alreadyDeleted =>
      (⟨"already_deleted", []⟩,
        [⟨organization_id, none, invitation_token,
          ConduitState.STATE_2_3_CLAIMER_NONCE, claimer_nonce⟩])
  | Except.error InvitationError.invalidState =>
      (⟨"invalid_state", []⟩,
        [⟨organization_id, none, invitation_token,
          ConduitState.STATE_2_3_CLAIMER_NONCE, claimer_nonce⟩])
  | Except.ok _ =>
      (⟨"ok", []⟩,
        [⟨organization_id, none, invitation_token,
          ConduitState.STATE_2_3_CLAIMER_NONCE, claimer_nonce⟩])

/-- api_invite_3a_greeter_wait_peer_trust: one exchange at
STATE_3_1_CLAIMER_TRUST on the greeter side with an empty payload; success
is a bare ok. -/
def api_invite_3a_greeter_wait_peer_trust (exchange : ExchangeOracle)
    (organization_id : OrganizationID) (user_id : UserID) (token : UUID) :
    InviteStepRep × List ExchangeCall :=
  match exchange ⟨organization_id, some user_id, token,
      ConduitState.STATE_3_1_CLAIMER_TRUST, []⟩ with
  | Except.error InvitationError.notFound =>
      (⟨"not_found", []⟩,
        [⟨organization_id, some user_id, token, ConduitState.STATE_3_1_CLAIMER_TRUST, []⟩])
  | Except.error InvitationError.alreadyDeleted =>
      (⟨"already_deleted", []⟩,
        [⟨organization_id, some user_id, token, ConduitState.STATE_3_1_CLAIMER_TRUST, []⟩])
  | Except.error InvitationError.invalidState =>
      (⟨"invalid_state", []⟩,
        [⟨organization_id, some user_id, token, ConduitState.STATE_3_1_CLAIMER_TRUST, []⟩])
  | Except.ok _ =>
      (⟨"ok", []⟩,
        [⟨organization_id, some user_id, token, ConduitState.STATE_3_1_CLAIMER_TRUST, []⟩])

/-- api_invite_3b_claimer_wait_peer_trust: one exchange at
STATE_3_2_GREETER_TRUST on the claimer side with an empty payload; success
is a bare ok. -/
def api_invite_3b_claimer_wait_peer_trust (exchange : ExchangeOracle)
    (organization_id : OrganizationID) (invitation_token : UUID) :
    InviteStepRep × List ExchangeCall :=
  match exchange ⟨organization_id, none, invitation_token,
      ConduitState.STATE_3_2_GREETER_TRUST, []⟩ with
  | Except.error InvitationError.notFound =>
      (⟨"not_found", []⟩,
        [⟨organization_id, none, invitation_token, ConduitState.STATE_3_2_GREETER_TRUST, []⟩])
  | Except.error InvitationError.alreadyDeleted =>
      (⟨"already_deleted", []⟩,
        [⟨organization_id, none, invitation_token, ConduitState.STATE_3_2_GREETER_TRUST, []⟩])
  | Except.error InvitationError.invalidState =>
      (⟨"invalid_state", []⟩,
        [⟨organization_id, none, invitation_token, ConduitState.STATE_3_2_GREETER_TRUST, []⟩])
  | Except.ok _ =>
      (⟨"ok", []⟩,
        [⟨organization_id, none, invitation_token, ConduitState.STATE_3_2_GREETER_TRUST, []⟩])

/-- api_invite_3b_greeter_signify_trust: one exchange at
STATE_3_2_GREETER_TRUST on the greeter side with an empty payload; success
is a bare ok. -/
def api_invite_3b_greeter_signify_trust (exchange : ExchangeOracle)
    (organization_id : OrganizationID) (user_id : UserID) (token : UUID) :
    InviteStepRep × List ExchangeCall :=
  match exchange ⟨organization_id, some user_id, token,
      ConduitState.STATE_3_2_GREETER_TRUST, []⟩ with
  | Except.error InvitationError.notFound =>
      (⟨"not_found", []⟩,
        [⟨organization_id, some user_id, token, ConduitState.STATE_3_2_GREETER_TRUST, []⟩])
  | Except.error InvitationError.alreadyDeleted =>
      (⟨"already_deleted", []⟩,
        [⟨organization_id, some user_id, token, ConduitState.STATE_3_2_GREETER_TRUST, []⟩])
  | Except.error InvitationError.invalidState =>
      (⟨"invalid_state", []⟩,
        [⟨organization_id, some user_id, token, ConduitState.STATE_3_2_GREETER_TRUST, []⟩])
  | Except.ok _ =>
      (⟨"ok", []⟩,
        [⟨organization_id, some user_id, token, ConduitState.STATE_3_2_GREETER_TRUST, []⟩])

/-- api_invite_3a_claimer_signify_trust: one exchange at
STATE_3_1_CLAIMER_TRUST on the claimer side with an empty payload; success
is a bare ok. -/
def api_invite_3a_claimer_signify_trust (exchange : ExchangeOracle)
    (organization_id : OrganizationID) (invitation_token : UUID) :
    InviteStepRep × List ExchangeCall :=
  match exchange ⟨organization_id, none, invitation_token,
      ConduitState.STATE_3_1_CLAIMER_TRUST, []⟩ with
  | Except.error InvitationError.notFound =>
      (⟨"not_found", []⟩,
        [⟨organization_id, none, invitation_token, ConduitState.STATE_3_1_CLAIMER_TRUST, []⟩])
  | Except.error InvitationError.alreadyDeleted =>
      (⟨"already_deleted", []⟩,
        [⟨organization_id, none, invitation_token, ConduitState.STATE_3_1_CLAIMER_TRUST, []⟩])
  | Except.error InvitationError.invalidState =>
      (⟨"invalid_state", []⟩,
        [⟨organization_id, none, invitation_token, ConduitState.STATE_3_1_CLAIMER_TRUST, []⟩])
  | Except.ok _ =>
      (⟨"ok", []⟩,
        [⟨organization_id, none, invitation_token, ConduitState.STATE_3_1_CLAIMER_TRUST, []⟩])

/-- api_invite_4_greeter_communicate: one exchange at STATE_4_COMMUNICATE
on the greeter side with an arbitrary payload; success returns the peer
payload in the "payload" field. -/
def api_invite_4_greeter_communicate (exchange : ExchangeOracle)
    (organization_id : OrganizationID) (user_id : UserID) (token : UUID)
    (payload : Bytes) : InviteStepRep × List ExchangeCall :=
  match exchange ⟨organization_id, some user_id, token,
      ConduitState.STATE_4_COMMUNICATE, payload⟩ with
  | Except.error InvitationError.notFound =>
      (⟨"not_found", []⟩,
        [⟨organization_id, some user_id, token, ConduitState.STATE_4_COMMUNICATE, payload⟩])
  | Except.error InvitationError.alreadyDeleted =>
      (⟨"already_deleted", []⟩,
        [⟨organization_id, some user_id, token, ConduitState.STATE_4_COMMUNICATE, payload⟩])
  | Except.error InvitationError.invalidState =>
      (⟨"invalid_state", []⟩,
        [⟨organization_id, some user_id, token, ConduitState.STATE_4_COMMUNICATE, payload⟩])
  | Except.ok answer_payload =>
      (⟨"ok", [("payload", answer_payload)]⟩,
        [⟨organization_id, some user_id, token, ConduitState.STATE_4_COMMUNICATE, payload⟩])

/-- api_invite_4_claimer_communicate: one exchange at STATE_4_COMMUNICATE
on the claimer side with an arbitrary payload; success returns the peer
payload in the "payload" field. -/
def api_invite_4_claimer_communicate (exchange : ExchangeOracle)
    (organization_id : OrganizationID) (invitation_token : UUID)
    (payload : Bytes) : InviteStepRep × List ExchangeCall :=
  match exchange ⟨organization_id, none, invitation_token,
      ConduitState.STATE_4_COMMUNICATE, payload⟩ with
  | Except.error InvitationError.notFound =>
      (⟨"not_found", []⟩,
        [⟨organization_id, none, invitation_token, ConduitState.STATE_4_COMMUNICATE, payload⟩])
  | Except.error InvitationError.alreadyDeleted =>
      (⟨"already_deleted", []⟩,
        [⟨organization_id, none, invitation_token, ConduitState.STATE_4_COMMUNICATE, payload⟩])
  | Except.error InvitationError.invalidState =>
      (⟨"invalid_state", []⟩,
        [⟨organization_id, none, invitation_token, ConduitState.STATE_4_COMMUNICATE, payload⟩])
  | Except.ok answer_payload =>
      (⟨"ok", [("payload", answer_payload)]⟩,
        [⟨organization_id, none, invitation_token, ConduitState.STATE_4_COMMUNICATE, payload⟩])

/-- Invitation statuses (parsec.api.protocol InvitationStatus, as used by
invite.py and spec section 3). -/
inductive InvitationStatus where
  | IDLE
  | READY
  | DELETED
deriving DecidableEq, Repr

/-- Invitation kinds (parsec.api.protocol InvitationType). -/
inductive InvitationType where
  | USER
  | DEVICE
deriving DecidableEq, Repr

/-- Caller profiles carried by the AUTHENTICATED handshake
(parsec.api.data UserProfile). -/
inductive UserProfile where
  | ADMIN
  | STANDARD
  | OUTSIDER
deriving DecidableEq, Repr

/-- The UserInvitation record of invite.py. -/
structure UserInvitation where
  greeter_user_id : UserID
  greeter_human_handle : Option String
  claimer_email : String
  token : UUID
  created_on : Nat
  status : InvitationStatus
deriving DecidableEq, Repr

/-- The DeviceInvitation record of invite.py. -/
structure DeviceInvitation where
  greeter_user_id : UserID
  greeter_human_handle : Option String
  token : UUID
  created_on : Nat
  status : InvitationStatus
deriving DecidableEq, Repr

/-- Invitation = Union[UserInvitation, DeviceInvitation]. -/
inductive Invitation where
  | user (u : UserInvitation)
  | device (d : DeviceInvitation)
deriving DecidableEq, Repr

/-- The token of an invitation, either kind. -/
def Invitation.token : Invitation → UUID
  | Invitation.user u => u.token
  | Invitation.device d => d.token

/-- The status of an invitation, either kind. -/
def Invitation.status : Invitation → InvitationStatus
  | Invitation.user u => u.status
  | Invitation.device d => d.status

/-- Reply of api_invite_new. -/
inductive InviteNewRep where
  | not_allowed
  | not_implemented
  | ok (token : UUID)
deriving DecidableEq, Repr

/-- Record of the invitation api_invite_new asked the store to create, if
any (new_for_user or new_for_device). -/
inductive CreatedInvitation where
  | user (claimer_email : String) (token : UUID)
  | device (token : UUID)
deriving DecidableEq, Repr

/-- The decoded invite_new request: kind, the send_email flag and the
claimer email (the latter meaningful for USER invitations only). -/
structure InviteNewMsg where
  type : InvitationType
  send_email : Bool
  claimer_email : String
deriving DecidableEq, Repr

/-- api_invite_new (invite.py): USER invitations require an ADMIN caller
(else not_allowed) and refuse the send_email flag (not_implemented);
DEVICE invitations are created unconditionally. `fresh_token` is the token
the store assigns to the created invitation; the second component records
what was created. -/
def api_invite_new (profile : UserProfile) (msg : InviteNewMsg) (fresh_token : UUID) :
    InviteNewRep × Option CreatedInvitation :=
  match msg.type with
  | InvitationType.USER =>
    if profile ≠ UserProfile.ADMIN then
      (InviteNewRep.not_allowed, none)
    else if msg.send_email then
      (InviteNewRep.not_implemented, none)
    else
      (InviteNewRep.ok fresh_token, some (CreatedInvitation.user msg.claimer_email fresh_token))
  | InvitationType.DEVICE =>
      (InviteNewRep.ok fresh_token, some (CreatedInvitation.device fresh_token))

/-- The reply map built by api_invite_info for a non-failing request. -/
structure InviteInfoRep where
  type : InvitationType
  claimer_email : Option String
  greeter_user_id : UserID
  greeter_human_handle : Option String
deriving DecidableEq, Repr

/-- Outcome of an invite_info request, covering both the handler's reply
and the failures the invitation fetch can surface. -/
inductive InviteInfoOutcome where
  | details (rep : InviteInfoRep)
  | notFound
  | alreadyDeleted
deriving DecidableEq, Repr

/-- api_invite_info (invite.py): builds the reply from the invitation
pre-fetched during the handshake (client_ctx.invitation). The handler
performs no status check on that record (the source carries a TODO asking
whether deleted invitations should be checked here), so it can only
produce details. -/
def api_invite_info (invitation : Invitation) : InviteInfoOutcome :=
  match invitation with
  | Invitation.user u =>
      InviteInfoOutcome.details
        ⟨InvitationType.USER, some u.claimer_email, u.greeter_user_id, u.greeter_human_handle⟩
  | Invitation.device d =>
      InviteInfoOutcome.details
        ⟨InvitationType.DEVICE, none, d.greeter_user_id, d.greeter_human_handle⟩

/-- Modelled from the spec: BaseInviteComponent.info is abstract in src/
(its body raises NotImplementedError); per its docstring and spec section
4.A it fails with NOT_FOUND when the token is absent and ALREADY_DELETED
when the invitation record is in the DELETED status, otherwise returns the
record. -/
def info_fetch (store : List Invitation) (token : UUID) : Except InvitationError Invitation :=
  match store.find? (fun inv => inv.token == token) with
  | none => Except.error InvitationError.notFound
  | some inv =>
      if inv.status = InvitationStatus.DELETED then
        Except.error InvitationError.alreadyDeleted
      else
        Except.ok inv

/-- Modelled from the spec: an invite_info request arriving on a new
INVITED connection; spec section 6 has the INVITED handshake resolve the
token to the pre-fetched invitation record (through info), so a deleted or
absent invitation fails before api_invite_info runs. -/
def invite_info_fresh_connection (store : List Invitation) (token : UUID) :
    InviteInfoOutcome :=
  match info_fetch store token with
  | Except.error InvitationError.notFound => InviteInfoOutcome.notFound
  | Except.error InvitationError.alreadyDeleted => InviteInfoOutcome.alreadyDeleted
  | Except.error InvitationError.invalidState => InviteInfoOutcome.notFound
  | Except.ok invitation => api_invite_info invitation

/-- An `invite.status_changed` event as delivered to _on_status_changed. -/
structure StatusChangedEvent where
  organization_id : OrganizationID
  greeter : UserID
  token : UUID
  status : InvitationStatus
deriving DecidableEq, Repr

/-- The claimer presence tracker _claimers_ready, viewed through
membership: `s org tok = true` iff tok is in the per-organization set of
org. -/
abbrev ClaimersReady := OrganizationID → UUID → Bool

/-- The empty tracker (defaultdict(set): every organization starts with an
empty set). -/
def emptyClaimersReady : ClaimersReady := fun _ _ => false

/-- _on_status_changed (invite.py): a READY status adds the event's token
to the event's organization set, any other status discards it. -/
def _on_status_changed (claimers_ready : ClaimersReady) (e : StatusChangedEvent) :
    ClaimersReady :=
  if e.status = InvitationStatus.READY then
    fun org tok =>
      if org = e.organization_id ∧ tok = e.token then true else claimers_ready org tok
  else
    fun org tok =>
      if org = e.organization_id ∧ tok = e.token then false else claimers_ready org tok

/-- The tracker after processing a sequence of `invite.status_changed`
events in order, starting from the empty tracker. -/
def processStatusChanged (events : List StatusChangedEvent) : ClaimersReady :=
  events.foldl _on_status_changed emptyClaimersReady

/-- The status of the last event of the sequence whose organization and
token match, if any. -/
def lastStatusFor : List StatusChangedEvent → OrganizationID → UUID → Option InvitationStatus
  | [], _, _ => none
  | e :: rest, org, tok =>
    match lastStatusFor rest org tok with
    | some st => some st
    | none =>
        if e.organization_id = org ∧ e.token = tok then some e.status else none

theorem conduit_exchange_loop_some_iff (listens : Nat → Option Bytes) :
    ∀ (fuel i : Nat) (p : Bytes),
      conduit_exchange_loop listens i fuel = some p ↔
        ∃ d, d < fuel ∧ listens (i + d) = some p ∧ ∀ e, e < d → listens (i + e) = none := by
  intro fuel
  induction fuel with
  | zero =>
    intro i p
    simp [conduit_exchange_loop]
  | succ n ih =>
    intro i p
    constructor
    · intro h
      unfold conduit_exchange_loop at h
      cases hl : listens i with
      | some q =>
        rw [hl] at h
        refine ⟨0, Nat.succ_pos n, ?_, ?_⟩
        · simpa [hl] using h
        · intro e he
          exact absurd he (Nat.not_lt_zero e)
      | none =>
        rw [hl] at h
        obtain ⟨d, hd, hsome, hnone⟩ := (ih (i + 1) p).mp h
        refine ⟨d + 1, Nat.succ_lt_succ hd, ?_, ?_⟩
        · have harith : i + (d + 1) = i + 1 + d := by omega
          rw [harith]
          exact hsome
        · intro e he
          cases e with
          | zero => simpa using hl
          | succ m =>
            have harith : i + (m + 1) = i + 1 + m := by omega
            rw [harith]
            exact hnone m (Nat.lt_of_succ_lt_succ he)
    · rintro ⟨d, hd, hsome, hnone⟩
      unfold conduit_exchange_loop
      cases d with
      | zero =>
        simp only [Nat.add_zero] at hsome
        rw [hsome]
      | succ m =>
        have h0 : listens i = none := by simpa using hnone 0 (Nat.succ_pos m)
        rw [h0]
        refine (ih (i + 1) p).mpr ⟨m, Nat.lt_of_succ_lt_succ hd, ?_, ?_⟩
        · have harith : i + 1 + m = i + (m + 1) := by omega
          rw [harith]
          exact hsome
        · intro e he
          have harith : i + 1 + e = i + (e + 1) := by omega
          rw [harith]
          exact hnone (e + 1) (Nat.succ_lt_succ he)

theorem conduit_exchange_loop_all_none (listens : Nat → Option Bytes)
    (h : ∀ j, listens j = none) :
    ∀ (fuel i : Nat), conduit_exchange_loop listens i fuel = none := by
  intro fuel
  induction fuel with
  | zero => intro i; rfl
  | succ n ih =>
    intro i
    unfold conduit_exchange_loop
    rw [h i]
    exact ih (i + 1)

theorem conduit_exchange_loop_trace_blocks (listens : Nat → Option Bytes) :
    ∀ (fuel i : Nat), ∃ k, k ≤ fuel ∧
      conduit_exchange_loop_trace listens i fuel = waitClearListenBlocks k := by
  intro fuel
  induction fuel with
  | zero => intro i; exact ⟨0, Nat.le_refl 0, rfl⟩
  | succ n ih =>
    intro i
    cases hl : listens i with
    | some q =>
      refine ⟨1, Nat.succ_le_succ (Nat.zero_le n), ?_⟩
      unfold conduit_exchange_loop_trace
      rw [hl]
      rfl
    | none =>
      obtain ⟨k, hk, heq⟩ := ih (i + 1)
      refine ⟨k + 1, Nat.succ_le_succ hk, ?_⟩
      unfold conduit_exchange_loop_trace
      rw [hl]
      unfold waitClearListenBlocks
      rw [heq]

theorem conduit_exchange_loop_trace_head (listens : Nat → Option Bytes)
    (fuel i : Nat) (h : fuel ≠ 0) :
    ∃ rest, conduit_exchange_loop_trace listens i fuel =
      ExchangeAction.waiterWait :: ExchangeAction.waiterClear :: ExchangeAction.listenStep ::
        rest := by
  cases fuel with
  | zero => exact absurd rfl h
  | succ n =>
    cases hl : listens i with
    | some q =>
      refine ⟨[], ?_⟩
      simp [conduit_exchange_loop_trace, hl]
    | none =>
      refine ⟨conduit_exchange_loop_trace listens (i + 1) n, ?_⟩
      simp [conduit_exchange_loop_trace, hl]

theorem lastStatusFor_cons (e : StatusChangedEvent) (rest : List StatusChangedEvent)
    (org : OrganizationID) (tok : UUID) :
    lastStatusFor (e :: rest) org tok =
      match lastStatusFor rest org tok with
      | some st => some st
      | none =>
          if e.organization_id = org ∧ e.token = tok then some e.status else none := rfl

theorem foldl_on_status_changed (events : List StatusChangedEvent) :
    ∀ (s : ClaimersReady) (org : OrganizationID) (tok : UUID),
      (events.foldl _on_status_changed s) org tok =
        match lastStatusFor events org tok with
        | some st => decide (st = InvitationStatus.READY)
        | none => s org tok := by
  induction events with
  | nil =>
    intro s org tok
    simp [lastStatusFor]
  | cons e rest ih =>
    intro s org tok
    rw [List.foldl_cons, ih (_on_status_changed s e) org tok, lastStatusFor_cons]
    cases hlast : lastStatusFor rest org tok with
    | some st => rfl
    | none =>
      by_cases hmatch : e.organization_id = org ∧ e.token = tok
      · rw [if_pos hmatch]
        obtain ⟨h1, h2⟩ := hmatch
        subst h1
        subst h2
        unfold _on_status_changed
        by_cases hst : e.status = InvitationStatus.READY
        · simp [hst]
        · simp [hst]
      · rw [if_neg hmatch]
        unfold _on_status_changed
        have hne : ¬(org = e.organization_id ∧ tok = e.token) := by
          intro hc
          exact hmatch ⟨hc.1.symm, hc.2.symm⟩
        by_cases hst : e.status = InvitationStatus.READY
        · simp [hst, hne]
        · simp [hst, hne]

/-- C1: for every call, conduit_exchange registers a waiter on the
`invite.conduit_updated` event whose filter accepts exactly the events
matching the call's organization and token, and does so before invoking
_conduit_talk; after the talk step it loops wait, clear, listen, and it
returns the first non-None payload _conduit_listen produces. -/
theorem conduit_exchange_spec (talk : ExchangeCall → ConduitListenCtx)
    (listen : ConduitListenCtx → Nat → Option Bytes) (call : ExchangeCall)
    (fuel : Nat) (p : Bytes) :
    (∀ org tok,
      _conduit_updated_filter call.organization_id call.token org tok = true ↔
        org = call.organization_id ∧ tok = call.token) ∧
    (∃ k, k ≤ fuel ∧
      conduit_exchange_trace talk listen call fuel =
        ExchangeAction.registerWaiter "invite.conduit_updated" call.organization_id
            call.token ::
          ExchangeAction.talkStep call :: waitClearListenBlocks k) ∧
    (conduit_exchange talk listen call fuel = some p ↔
      ∃ i, i < fuel ∧ listen (talk call) i = some p ∧
        ∀ j, j < i → listen (talk call) j = none) := by
  refine ⟨?_, ?_, ?_⟩
  · intro org tok
    simp [_conduit_updated_filter]
  · obtain ⟨k, hk, heq⟩ := conduit_exchange_loop_trace_blocks (listen (talk call)) fuel 0
    exact ⟨k, hk, by simp [conduit_exchange_trace, heq]⟩
  · have h := conduit_exchange_loop_some_iff (listen (talk call)) fuel 0 p
    simpa [conduit_exchange] using h

theorem conduit_exchange_spec_witness :
    _conduit_updated_filter "org" 7 "org" 7 = true ∧
    conduit_exchange
        (fun _ => ⟨"org", none, 7, ConduitState.STATE_1_WAIT_PEERS, [], none⟩)
        (fun _ n => if n = 1 then some [9] else none)
        ⟨"org", none, 7, ConduitState.STATE_1_WAIT_PEERS, [1]⟩ 3 = some [9] := by
  have h := conduit_exchange_spec
    (fun _ => ⟨"org", none, 7, ConduitState.STATE_1_WAIT_PEERS, [], none⟩)
    (fun _ n => if n = 1 then some [9] else none)
    ⟨"org", none, 7, ConduitState.STATE_1_WAIT_PEERS, [1]⟩ 3 [9]
  refine ⟨(h.1 "org" 7).mpr ⟨rfl, rfl⟩, h.2.2.mpr ⟨1, by omega, rfl, ?_⟩⟩
  intro j hj
  have hj0 : j = 0 := by omega
  subst hj0
  rfl

/-- C2: NEXT_CONDUIT_STATE is a total function on the seven conduit states
mapping each state to its successor in the listed order, and
STATE_4_COMMUNICATE is the only self-looping state. -/
theorem NEXT_CONDUIT_STATE_spec :
    NEXT_CONDUIT_STATE ConduitState.STATE_1_WAIT_PEERS =
        ConduitState.STATE_2_1_CLAIMER_HASHED_NONCE ∧
    NEXT_CONDUIT_STATE ConduitState.STATE_2_1_CLAIMER_HASHED_NONCE =
        ConduitState.STATE_2_2_GREETER_NONCE ∧
    NEXT_CONDUIT_STATE ConduitState.STATE_2_2_GREETER_NONCE =
        ConduitState.STATE_2_3_CLAIMER_NONCE ∧
    NEXT_CONDUIT_STATE ConduitState.STATE_2_3_CLAIMER_NONCE =
        ConduitState.STATE_3_1_CLAIMER_TRUST ∧
    NEXT_CONDUIT_STATE ConduitState.STATE_3_1_CLAIMER_TRUST =
        ConduitState.STATE_3_2_GREETER_TRUST ∧
    NEXT_CONDUIT_STATE ConduitState.STATE_3_2_GREETER_TRUST =
        ConduitState.STATE_4_COMMUNICATE ∧
    NEXT_CONDUIT_STATE ConduitState.STATE_4_COMMUNICATE =
        ConduitState.STATE_4_COMMUNICATE ∧
    (∀ s, NEXT_CONDUIT_STATE s = s ↔ s = ConduitState.STATE_4_COMMUNICATE) := by
  refine ⟨rfl, rfl, rfl, rfl, rfl, rfl, rfl, ?_⟩
  intro s
  cases s <;> decide

/-- C4: PEER_EVENT_MAX_WAIT is 300 seconds; when the peer never
contributes, the conduit_exchange waiting loop of invite.py never produces
a payload by itself no matter how many wakeups arrive, and the
spec-modelled transport deadline therefore ends the operation in a
transport-level timeout, an outcome distinct from every completed reply
(the conduit error statuses only travel on replies). -/
theorem PEER_EVENT_MAX_WAIT_timeout (listens : Nat → Option Bytes)
    (talk : ExchangeCall → ConduitListenCtx)
    (listen : ConduitListenCtx → Nat → Option Bytes) (call : ExchangeCall) :
    PEER_EVENT_MAX_WAIT = 300 ∧
    ((∀ j, listen (talk call) j = none) →
      ∀ fuel, conduit_exchange talk listen call fuel = none) ∧
    ((∀ j, listens j = none) →
      ∀ wakeups, transport_bounded_exchange listens wakeups =
        TransportOutcome.timeoutError) ∧
    (∀ pl, TransportOutcome.timeoutError ≠ TransportOutcome.completed pl) := by
  refine ⟨rfl, ?_, ?_, ?_⟩
  · intro h fuel
    exact conduit_exchange_loop_all_none (listen (talk call)) h fuel 0
  · intro h wakeups
    unfold transport_bounded_exchange
    rw [conduit_exchange_loop_all_none listens h wakeups 0]
  · intro pl hc
    exact TransportOutcome.noConfusion hc

theorem PEER_EVENT_MAX_WAIT_timeout_witness :
    transport_bounded_exchange (fun _ => none) PEER_EVENT_MAX_WAIT =
      TransportOutcome.timeoutError ∧
    conduit_exchange
        (fun _ => ⟨"org", none, 7, ConduitState.STATE_1_WAIT_PEERS, [], none⟩)
        (fun _ _ => none)
        ⟨"org", none, 7, ConduitState.STATE_1_WAIT_PEERS, [1]⟩ 5 = none := by
  have h := PEER_EVENT_MAX_WAIT_timeout (fun _ => none)
    (fun _ => ⟨"org", none, 7, ConduitState.STATE_1_WAIT_PEERS, [], none⟩)
    (fun _ _ => none)
    ⟨"org", none, 7, ConduitState.STATE_1_WAIT_PEERS, [1]⟩
  exact ⟨h.2.2.1 (fun j => rfl) PEER_EVENT_MAX_WAIT, h.2.1 (fun j => rfl) 5⟩

/-- C10: conduit_exchange never short-circuits on the peer payload the
talk step captured: its return value is always the result of a
_conduit_listen call, the first listen only happens after a waiter wait,
and this holds even when the talk context already carries a peer
payload. -/
theorem conduit_exchange_listen_only (talk : ExchangeCall → ConduitListenCtx)
    (listen : ConduitListenCtx → Nat → Option Bytes) (call : ExchangeCall)
    (fuel n : Nat) (p q : Bytes) :
    (conduit_exchange talk listen call fuel = some p →
      ∃ i, listen (talk call) i = some p) ∧
    (fuel = n + 1 →
      ∃ rest, conduit_exchange_trace talk listen call fuel =
        ExchangeAction.registerWaiter "invite.conduit_updated" call.organization_id
            call.token ::
          ExchangeAction.talkStep call :: ExchangeAction.waiterWait ::
          ExchangeAction.waiterClear :: ExchangeAction.listenStep :: rest) ∧
    ((talk call).peer_payload = some q →
      conduit_exchange talk listen call fuel = some p →
      ∃ i, listen (talk call) i = some p ∧ ∀ j, j < i → listen (talk call) j = none) := by
  refine ⟨?_, ?_, ?_⟩
  · intro h
    obtain ⟨d, _, hsome, _⟩ :=
      (conduit_exchange_loop_some_iff (listen (talk call)) fuel 0 p).mp h
    exact ⟨0 + d, hsome⟩
  · intro hfuel
    obtain ⟨rest, hr⟩ :=
      conduit_exchange_loop_trace_head (listen (talk call)) fuel 0 (by omega)
    exact ⟨rest, by simp [conduit_exchange_trace, hr]⟩
  · intro _ h
    obtain ⟨d, _, hsome, hnone⟩ :=
      (conduit_exchange_loop_some_iff (listen (talk call)) fuel 0 p).mp h
    refine ⟨0 + d, hsome, ?_⟩
    intro j hj
    have hj' : j = 0 + j := by omega
    rw [hj']
    exact hnone j (by omega)

theorem conduit_exchange_listen_only_witness :
    ∃ i, (fun (_ : ConduitListenCtx) (m : Nat) => if m = 0 then some [9] else none)
        ((fun (_ : ExchangeCall) =>
          (⟨"org", none, 7, ConduitState.STATE_1_WAIT_PEERS, [], some [3]⟩ :
            ConduitListenCtx))
          ⟨"org", none, 7, ConduitState.STATE_1_WAIT_PEERS, [1]⟩) i = some [9] ∧
      ∀ j, j < i →
        (fun (_ : ConduitListenCtx) (m : Nat) => if m = 0 then some [9] else none)
          ((fun (_ : ExchangeCall) =>
            (⟨"org", none, 7, ConduitState.STATE_1_WAIT_PEERS, [], some [3]⟩ :
              ConduitListenCtx))
            ⟨"org", none, 7, ConduitState.STATE_1_WAIT_PEERS, [1]⟩) j = none := by
  have h := conduit_exchange_listen_only
    (fun (_ : ExchangeCall) =>
      (⟨"org", none, 7, ConduitState.STATE_1_WAIT_PEERS, [], some [3]⟩ : ConduitListenCtx))
    (fun (_ : ConduitListenCtx) (m : Nat) => if m = 0 then some [9] else none)
    ⟨"org", none, 7, ConduitState.STATE_1_WAIT_PEERS, [1]⟩ 1 0 [9] [3]
  exact h.2.2 rfl rfl

/-- C3: every one of the twelve conduit-step RPC handlers maps engine
errors to wire statuses through the one shared mapping step_reply, which
sends InvitationNotFoundError to not_found, InvitationAlreadyDeletedError
to already_deleted, InvitationInvalidStateError to invalid_state, and a
successful exchange to an ok reply carrying the payload field listed for
the RPC (chained handlers factor through step_reply on the bind of their
two exchanges). -/
theorem invite_step_handlers_uniform (exchange : ExchangeOracle)
    (org : OrganizationID) (uid : UserID) (tok : UUID) (pl : Bytes) :
    (∀ f : Bytes → List (String × Bytes),
      step_reply f (Except.error InvitationError.notFound) = ⟨"not_found", []⟩ ∧
      step_reply f (Except.error InvitationError.alreadyDeleted) =
        ⟨"already_deleted", []⟩ ∧
      step_reply f (Except.error InvitationError.invalidState) =
        ⟨"invalid_state", []⟩ ∧
      ∀ p, step_reply f (Except.ok p) = ⟨"ok", f p⟩) ∧
    (api_invite_1_claimer_wait_peer exchange org tok pl).1 =
      step_reply (fun p => [("greeter_public_key", p)])
        (exchange ⟨org, none, tok, ConduitState.STATE_1_WAIT_PEERS, pl⟩) ∧
    (api_invite_1_greeter_wait_peer exchange org uid tok pl).1 =
      step_reply (fun p => [("claimer_public_key", p)])
        (exchange ⟨org, some uid, tok, ConduitState.STATE_1_WAIT_PEERS, pl⟩) ∧
    (api_invite_2a_claimer_send_hashed_nonce exchange org tok pl).1 =
      step_reply (fun p => [("greeter_nonce", p)])
        (Except.bind
          (exchange ⟨org, none, tok, ConduitState.STATE_2_1_CLAIMER_HASHED_NONCE, pl⟩)
          (fun _ =>
            exchange ⟨org, none, tok, ConduitState.STATE_2_2_GREETER_NONCE, []⟩)) ∧
    (api_invite_2a_greeter_get_hashed_nonce exchange org uid tok).1 =
      step_reply (fun p => [("claimer_hashed_nonce", p)])
        (exchange ⟨org, some uid, tok, ConduitState.STATE_2_1_CLAIMER_HASHED_NONCE, []⟩) ∧
    (api_invite_2b_greeter_send_nonce exchange org uid tok pl).1 =
      step_reply (fun p => [("claimer_nonce", p)])
        (Except.bind
          (exchange ⟨org, some uid, tok, ConduitState.STATE_2_2_GREETER_NONCE, pl⟩)
          (fun _ =>
            exchange ⟨org, some uid, tok, ConduitState.STATE_2_3_CLAIMER_NONCE, []⟩)) ∧
    (api_invite_2b_claimer_send_nonce exchange org tok pl).1 =
      step_reply (fun _ => [])
        (exchange ⟨org, none, tok, ConduitState.STATE_2_3_CLAIMER_NONCE, pl⟩) ∧
    (api_invite_3a_greeter_wait_peer_trust exchange org uid tok).1 =
      step_reply (fun _ => [])
        (exchange ⟨org, some uid, tok, ConduitState.STATE_3_1_CLAIMER_TRUST, []⟩) ∧
    (api_invite_3b_claimer_wait_peer_trust exchange org tok).1 =
      step_reply (fun _ => [])
        (exchange ⟨org, none, tok, ConduitState.STATE_3_2_GREETER_TRUST, []⟩) ∧
    (api_invite_3b_greeter_signify_trust exchange org uid tok).1 =
      step_reply (fun _ => [])
        (exchange ⟨org, some uid, tok, ConduitState.STATE_3_2_GREETER_TRUST, []⟩) ∧
    (api_invite_3a_claimer_signify_trust exchange org tok).1 =
      step_reply (fun _ => [])
        (exchange ⟨org, none, tok, ConduitState.STATE_3_1_CLAIMER_TRUST, []⟩) ∧
    (api_invite_4_greeter_communicate exchange org uid tok pl).1 =
      step_reply (fun p => [("payload", p)])
        (exchange ⟨org, some uid, tok, ConduitState.STATE_4_COMMUNICATE, pl⟩) ∧
    (api_invite_4_claimer_communicate exchange org tok pl).1 =
      step_reply (fun p => [("payload", p)])
        (exchange ⟨org, none, tok, ConduitState.STATE_4_COMMUNICATE, pl⟩) := by
  refine ⟨fun f => ⟨rfl, rfl, rfl, fun p => rfl⟩, ?_, ?_, ?_, ?_, ?_, ?_, ?_, ?_, ?_, ?_,
    ?_, ?_⟩
  · cases h : exchange ⟨org, none, tok, ConduitState.STATE_1_WAIT_PEERS, pl⟩ with
    | error e => cases e <;> simp [api_invite_1_claimer_wait_peer, step_reply, h]
    | ok p => simp [api_invite_1_claimer_wait_peer, step_reply, h]
  · cases h : exchange ⟨org, some uid, tok, ConduitState.STATE_1_WAIT_PEERS, pl⟩ with
    | error e => cases e <;> simp [api_invite_1_greeter_wait_peer, step_reply, h]
    | ok p => simp [api_invite_1_greeter_wait_peer, step_reply, h]
  · cases h1 : exchange ⟨org, none, tok, ConduitState.STATE_2_1_CLAIMER_HASHED_NONCE, pl⟩ with
    | error e =>
      cases e <;>
        simp [api_invite_2a_claimer_send_hashed_nonce, step_reply, Except.bind, h1]
    | ok p1 =>
      cases h2 : exchange ⟨org, none, tok, ConduitState.STATE_2_2_GREETER_NONCE, []⟩ with
      | error e =>
        cases e <;>
          simp [api_invite_2a_claimer_send_hashed_nonce, step_reply, Except.bind, h1, h2]
      | ok p2 =>
        simp [api_invite_2a_claimer_send_hashed_nonce, step_reply, Except.bind, h1, h2]
  · cases h : exchange ⟨org, some uid, tok, ConduitState.STATE_2_1_CLAIMER_HASHED_NONCE, []⟩ with
    | error e => cases e <;> simp [api_invite_2a_greeter_get_hashed_nonce, step_reply, h]
    | ok p => simp [api_invite_2a_greeter_get_hashed_nonce, step_reply, h]
  · cases h1 : exchange ⟨org, some uid, tok, ConduitState.STATE_2_2_GREETER_NONCE, pl⟩ with
    | error e =>
      cases e <;> simp [api_invite_2b_greeter_send_nonce, step_reply, Except.bind, h1]
    | ok p1 =>
      cases h2 : exchange ⟨org, some uid, tok, ConduitState.STATE_2_3_CLAIMER_NONCE, []⟩ with
      | error e =>
        cases e <;> simp [api_invite_2b_greeter_send_nonce, step_reply, Except.bind, h1, h2]
      | ok p2 =>
        simp [api_invite_2b_greeter_send_nonce, step_reply, Except.bind, h1, h2]
  · cases h : exchange ⟨org, none, tok, ConduitState.STATE_2_3_CLAIMER_NONCE, pl⟩ with
    | error e => cases e <;> simp [api_invite_2b_claimer_send_nonce, step_reply, h]
    | ok p => simp [api_invite_2b_claimer_send_nonce, step_reply, h]
  · cases h : exchange ⟨org, some uid, tok, ConduitState.STATE_3_1_CLAIMER_TRUST, []⟩ with
    | error e => cases e <;> simp [api_invite_3a_greeter_wait_peer_trust, step_reply, h]
    | ok p => simp [api_invite_3a_greeter_wait_peer_trust, step_reply, h]
  · cases h : exchange ⟨org, none, tok, ConduitState.STATE_3_2_GREETER_TRUST, []⟩ with
    | error e => cases e <;> simp [api_invite_3b_claimer_wait_peer_trust, step_reply, h]
    | ok p => simp [api_invite_3b_claimer_wait_peer_trust, step_reply, h]
  · cases h : exchange ⟨org, some uid, tok, ConduitState.STATE_3_2_GREETER_TRUST, []⟩ with
    | error e => cases e <;> simp [api_invite_3b_greeter_signify_trust, step_reply, h]
    | ok p => simp [api_invite_3b_greeter_signify_trust, step_reply, h]
  · cases h : exchange ⟨org, none, tok, ConduitState.STATE_3_1_CLAIMER_TRUST, []⟩ with
    | error e => cases e <;> simp [api_invite_3a_claimer_signify_trust, step_reply, h]
    | ok p => simp [api_invite_3a_claimer_signify_trust, step_reply, h]
  · cases h : exchange ⟨org, some uid, tok, ConduitState.STATE_4_COMMUNICATE, pl⟩ with
    | error e => cases e <;> simp [api_invite_4_greeter_communicate, step_reply, h]
    | ok p => simp [api_invite_4_greeter_communicate, step_reply, h]
  · cases h : exchange ⟨org, none, tok, ConduitState.STATE_4_COMMUNICATE, pl⟩ with
    | error e => cases e <;> simp [api_invite_4_claimer_communicate, step_reply, h]
    | ok p => simp [api_invite_4_claimer_communicate, step_reply, h]

theorem invite_step_handlers_uniform_witness :
    (api_invite_1_claimer_wait_peer (fun _ => Except.error InvitationError.notFound)
        "org" 7 [2]).1 =
      step_reply (fun p => [("greeter_public_key", p)])
        (Except.error InvitationError.notFound) := by
  have h := invite_step_handlers_uniform
    (fun _ => Except.error InvitationError.notFound) "org" "alice" 7 [2]
  exact h.2.1

/-- C5: the two chaining handlers perform exactly two conduit_exchange
calls back-to-back in one request: 2a claimer at STATE_2_1 with the hashed
nonce then at STATE_2_2 with an empty payload, returning the greeter nonce
and discarding the first result; 2b greeter at STATE_2_2 with the greeter
nonce then at STATE_2_3 with an empty payload, returning the claimer nonce
and discarding the first result. -/
theorem chained_handlers_two_calls (exchange : ExchangeOracle)
    (org : OrganizationID) (uid : UserID) (tok : UUID)
    (claimer_hashed_nonce greeter_nonce p1 p2 : Bytes) :
    (exchange ⟨org, none, tok, ConduitState.STATE_2_1_CLAIMER_HASHED_NONCE,
        claimer_hashed_nonce⟩ = Except.ok p1 →
      exchange ⟨org, none, tok, ConduitState.STATE_2_2_GREETER_NONCE, []⟩ =
        Except.ok p2 →
      api_invite_2a_claimer_send_hashed_nonce exchange org tok claimer_hashed_nonce =
        (⟨"ok", [("greeter_nonce", p2)]⟩,
          [⟨org, none, tok, ConduitState.STATE_2_1_CLAIMER_HASHED_NONCE,
            claimer_hashed_nonce⟩,
           ⟨org, none, tok, ConduitState.STATE_2_2_GREETER_NONCE, []⟩])) ∧
    (exchange ⟨org, some uid, tok, ConduitState.STATE_2_2_GREETER_NONCE,
        greeter_nonce⟩ = Except.ok p1 →
      exchange ⟨org, some uid, tok, ConduitState.STATE_2_3_CLAIMER_NONCE, []⟩ =
        Except.ok p2 →
      api_invite_2b_greeter_send_nonce exchange org uid tok greeter_nonce =
        (⟨"ok", [("claimer_nonce", p2)]⟩,
          [⟨org, some uid, tok, ConduitState.STATE_2_2_GREETER_NONCE, greeter_nonce⟩,
           ⟨org, some uid, tok, ConduitState.STATE_2_3_CLAIMER_NONCE, []⟩])) := by
  constructor
  · intro h1 h2
    simp [api_invite_2a_claimer_send_hashed_nonce, h1, h2]
  · intro h1 h2
    simp [api_invite_2b_greeter_send_nonce, h1, h2]

theorem chained_handlers_two_calls_witness :
    api_invite_2a_claimer_send_hashed_nonce (fun c => Except.ok c.payload) "org" 7 [4] =
      (⟨"ok", [("greeter_nonce", [])]⟩,
        [⟨"org", none, 7, ConduitState.STATE_2_1_CLAIMER_HASHED_NONCE, [4]⟩,
         ⟨"org", none, 7, ConduitState.STATE_2_2_GREETER_NONCE, []⟩]) ∧
    api_invite_2b_greeter_send_nonce (fun c => Except.ok c.payload) "org" "alice" 7 [5] =
      (⟨"ok", [("claimer_nonce", [])]⟩,
        [⟨"org", "alice", 7, ConduitState.STATE_2_2_GREETER_NONCE, [5]⟩,
         ⟨"org", "alice", 7, ConduitState.STATE_2_3_CLAIMER_NONCE, []⟩]) := by
  have h := chained_handlers_two_calls (fun c => Except.ok c.payload)
    "org" "alice" 7 [4] [5] [4] []
  refine ⟨h.1 rfl rfl, ?_⟩
  have h2 := chained_handlers_two_calls (fun c => Except.ok c.payload)
    "org" "alice" 7 [4] [5] [5] []
  exact h2.2 rfl rfl

/-- C7: for an invite_new request of USER kind, a caller whose profile is
not ADMIN gets not_allowed with no invitation created; an ADMIN caller
with send_email set gets not_implemented with no invitation created;
otherwise a user invitation is created and the reply is ok with its
token. -/
theorem api_invite_new_user_spec (profile : UserProfile) (msg : InviteNewMsg)
    (fresh_token : UUID) (hty : msg.type = InvitationType.USER) :
    (profile ≠ UserProfile.ADMIN →
      api_invite_new profile msg fresh_token = (InviteNewRep.not_allowed, none)) ∧
    (profile = UserProfile.ADMIN → msg.send_email = true →
      api_invite_new profile msg fresh_token = (InviteNewRep.not_implemented, none)) ∧
    (profile = UserProfile.ADMIN → msg.send_email = false →
      api_invite_new profile msg fresh_token =
        (InviteNewRep.ok fresh_token,
          some (CreatedInvitation.user msg.claimer_email fresh_token))) := by
  refine ⟨?_, ?_, ?_⟩
  · intro h
    simp [api_invite_new, hty, h]
  · intro h1 h2
    simp [api_invite_new, hty, h1, h2]
  · intro h1 h2
    simp [api_invite_new, hty, h1, h2]

theorem api_invite_new_user_spec_witness :
    api_invite_new UserProfile.STANDARD ⟨InvitationType.USER, false, "zack"⟩ 5 =
      (InviteNewRep.not_allowed, none) ∧
    api_invite_new UserProfile.ADMIN ⟨InvitationType.USER, true, "zack"⟩ 5 =
      (InviteNewRep.not_implemented, none) ∧
    api_invite_new UserProfile.ADMIN ⟨InvitationType.USER, false, "zack"⟩ 5 =
      (InviteNewRep.ok 5, some (CreatedInvitation.user "zack" 5)) := by
  refine ⟨?_, ?_, ?_⟩
  · exact (api_invite_new_user_spec UserProfile.STANDARD
      ⟨InvitationType.USER, false, "zack"⟩ 5 rfl).1 (by decide)
  · exact (api_invite_new_user_spec UserProfile.ADMIN
      ⟨InvitationType.USER, true, "zack"⟩ 5 rfl).2.1 rfl rfl
  · exact (api_invite_new_user_spec UserProfile.ADMIN
      ⟨InvitationType.USER, false, "zack"⟩ 5 rfl).2.2 rfl rfl

/-- C9: invite_new of DEVICE kind performs no profile check and never
consults the send_email flag: every caller, whatever the profile and flag,
gets an ok reply with the token of a freshly created device invitation;
the not_allowed and not_implemented replies are reachable only for USER
kind. -/
theorem api_invite_new_device_spec (profile : UserProfile) (msg : InviteNewMsg)
    (send_email : Bool) (claimer_email : String) (fresh_token : UUID) :
    api_invite_new profile ⟨InvitationType.DEVICE, send_email, claimer_email⟩
        fresh_token =
      (InviteNewRep.ok fresh_token, some (CreatedInvitation.device fresh_token)) ∧
    (((api_invite_new profile msg fresh_token).1 = InviteNewRep.not_allowed ∨
      (api_invite_new profile msg fresh_token).1 = InviteNewRep.not_implemented) →
      msg.type = InvitationType.USER) := by
  constructor
  · rfl
  · intro h
    cases hty : msg.type with
    | USER => rfl
    | DEVICE =>
      rcases h with h | h <;> simp [api_invite_new, hty] at h

theorem api_invite_new_device_spec_witness :
    api_invite_new UserProfile.OUTSIDER ⟨InvitationType.DEVICE, true, "zack"⟩ 3 =
      (InviteNewRep.ok 3, some (CreatedInvitation.device 3)) ∧
    (⟨InvitationType.USER, false, "zack"⟩ : InviteNewMsg).type = InvitationType.USER := by
  constructor
  · exact (api_invite_new_device_spec UserProfile.OUTSIDER
      ⟨InvitationType.DEVICE, true, "zack"⟩ true "zack" 3).1
  · exact (api_invite_new_device_spec UserProfile.OUTSIDER
      ⟨InvitationType.USER, false, "zack"⟩ false "zack" 3).2 (Or.inl (by decide))

/-- C8: _on_status_changed inserts the event token into the event
organization's set when the status is READY and removes it for any other
status, leaving unrelated entries untouched; hence after processing any
sequence of invite.status_changed events a token is in the tracker iff the
last matching event had status READY. -/
theorem claimers_ready_tracker_spec (s : ClaimersReady) (e : StatusChangedEvent)
    (org : OrganizationID) (tok : UUID) (events : List StatusChangedEvent) :
    (e.status = InvitationStatus.READY →
      _on_status_changed s e e.organization_id e.token = true) ∧
    (e.status ≠ InvitationStatus.READY →
      _on_status_changed s e e.organization_id e.token = false) ∧
    (¬(org = e.organization_id ∧ tok = e.token) →
      _on_status_changed s e org tok = s org tok) ∧
    (processStatusChanged events org tok = true ↔
      lastStatusFor events org tok = some InvitationStatus.READY) := by
  refine ⟨?_, ?_, ?_, ?_⟩
  · intro h
    simp [_on_status_changed, h]
  · intro h
    simp [_on_status_changed, h]
  · intro h
    unfold _on_status_changed
    by_cases hst : e.status = InvitationStatus.READY <;> simp [hst, h]
  · rw [processStatusChanged, foldl_on_status_changed]
    cases hl : lastStatusFor events org tok with
    | some st => cases st <;> simp
    | none => simp [emptyClaimersReady]

theorem claimers_ready_tracker_spec_witness :
    processStatusChanged [⟨"org", "alice", 1, InvitationStatus.READY⟩] "org" 1 = true ∧
    _on_status_changed emptyClaimersReady ⟨"org", "alice", 2, InvitationStatus.DELETED⟩
      "org" 2 = false := by
  constructor
  · exact (claimers_ready_tracker_spec emptyClaimersReady
      ⟨"org", "alice", 1, InvitationStatus.READY⟩ "org" 1
      [⟨"org", "alice", 1, InvitationStatus.READY⟩]).2.2.2.mpr (by decide)
  · exact (claimers_ready_tracker_spec emptyClaimersReady
      ⟨"org", "alice", 2, InvitationStatus.DELETED⟩ "org" 2 []).2.1 (by decide)

/-- C6 counterexample: api_invite_info builds its reply from the
handshake-prefetched invitation record with no deletion check (the source
carries a TODO about it), so for a deleted invitation it still returns the
invitation details and never the already_deleted outcome. -/
theorem api_invite_info_deleted_counterexample :
    api_invite_info
        (Invitation.device ⟨"alice", none, 42, 0, InvitationStatus.DELETED⟩) =
      InviteInfoOutcome.details ⟨InvitationType.DEVICE, none, "alice", none⟩ ∧
    api_invite_info
        (Invitation.device ⟨"alice", none, 42, 0, InvitationStatus.DELETED⟩) ≠
      InviteInfoOutcome.alreadyDeleted := by
  exact ⟨rfl, by decide⟩

/-- C6 amended: after an invitation has been deleted, an invite_info
request on a new INVITED connection fails with ALREADY_DELETED, because
the handshake's invitation fetch (modelled from the spec, the engine being
abstract in src) raises it before the handler runs; the api_invite_info
handler itself performs no deletion check on an already-established
connection. -/
theorem invite_info_after_delete (store : List Invitation) (token : UUID)
    (inv : Invitation)
    (hfind : store.find? (fun i => i.token == token) = some inv)
    (hdel : inv.status = InvitationStatus.DELETED) :
    invite_info_fresh_connection store token = InviteInfoOutcome.alreadyDeleted := by
  unfold invite_info_fresh_connection info_fetch
  rw [hfind]
  simp [hdel]

theorem invite_info_after_delete_witness :
    invite_info_fresh_connection
      [Invitation.device ⟨"alice", none, 42, 0, InvitationStatus.DELETED⟩] 42 =
      InviteInfoOutcome.alreadyDeleted := by
  exact invite_info_after_delete
    [Invitation.device ⟨"alice", none, 42, 0, InvitationStatus.DELETED⟩] 42
    (Invitation.device ⟨"alice", none, 42, 0, InvitationStatus.DELETED⟩)
    (by decide) rfl
